import Mathlib

/-!
Shallow embedding of laozhao43/485sensor-viz.

Pipeline B (src/viz.py): timestamps are modelled as integers counting
nanoseconds (numpy datetime64[ns]); sensor values as rationals.

Pipeline A (src/modviz5.py): the sampling thread is modelled as an explicit
state machine over an environment that supplies, per round, the wall-clock
timestamp string, the per-channel register read outcomes, whether the flush
interval has elapsed, and whether file I/O faults.
-/

/-- Target playback frame rate, src/viz.py line 15 (`target_fps = 30`). -/
def target_fps : Nat := 30

/-- Trailing window size in seconds, src/viz.py line 12 (`data_window_s = 3`). -/
def data_window_s : Int := 3

/-- Total duration of the loaded series in seconds, src/viz.py lines 90-93:
`(time_data[-1] - time_data[0]) / np.timedelta64(1, "s")` when the series has
more than one element, else `0`.  Timestamps are nanoseconds, so the duration
is the rational `(T[-1] - T[0]) / 10^9` (written with `Rat.divInt`, exact
division of an integer by an integer). -/
def total_duration_s (T : List Int) : ℚ :=
  if 1 < T.length then Rat.divInt (T.getLastD 0 - T.headD 0) 1000000000 else 0

/-- Right-sided `np.searchsorted` (src/viz.py line 106): for a sorted array it
returns the number of elements `≤ v`, i.e. the insertion index on the right. -/
def np_searchsorted_right (a : List Int) (v : Int) : Nat :=
  a.countP (fun t => decide (t ≤ v))

/-- Target time computed by the frame mapper, src/viz.py line 104:
`t0 + np.timedelta64(int(frame * 1000 / target_fps), "ms")`.  The Python
`int(...)` truncates the offset to whole milliseconds, hence the Nat division;
one millisecond is 1000000 nanoseconds. -/
def frame_target_time (T : List Int) (frame : Nat) : Int :=
  T.headD 0 + ((frame * 1000 / target_fps : Nat) : Int) * 1000000

/-- Frame mapper, src/viz.py lines 98-108 (`get_frame_time_idx`).  Returns 0
when the total duration is zero or the series has exactly one element;
otherwise right-biased search minus one, clipped to `[0, len-1]`. -/
def get_frame_time_idx (T : List Int) (frame : Nat) : Nat :=
  if total_duration_s T = 0 ∨ T.length = 1 then 0
  else
    let idx : Int := (np_searchsorted_right T (frame_target_time T frame) : Int) - 1
    (min (max idx 0) ((T.length : Int) - 1)).toNat

/-- Exact target time as the specification words it for claim C3:
`T[0] + frame × (1000/target_fps) ms`, with the frame offset taken exactly as
a rational (1 ms = 1000000 ns).  Written over the common denominator
`target_fps`; `frame_to_index_claim_target_eq` certifies it equals the
textbook formula. -/
def frame_target_time_claim (T : List Int) (frame : Nat) : ℚ :=
  Rat.divInt (T.headD 0 * target_fps + frame * 1000 * 1000000) target_fps

/-- Frame mapper as the specification words it (claim C3): the index of the
last timestamp `≤ T[0] + frame × (1000/target_fps) ms` with the offset taken
exactly, clamped to `[0, len(T)-1]`.  For a non-decreasing `T` the index of
the last timestamp `≤ x` is the number of timestamps `≤ x`, minus one. -/
def frame_to_index_claim (T : List Int) (frame : Nat) : Nat :=
  let c := T.countP (fun t => decide ((t : ℚ) ≤ frame_target_time_claim T frame))
  min (max (c - 1) 0) (T.length - 1)

/-- Window extractor, timestamp slice, src/viz.py lines 112-115:
`end_time = time_data[idx]`, `start_time_window = end_time - timedelta(w, "s")`,
`mask = (time_data >= start_time_window) & (time_data <= end_time)`,
`t = time_data[mask]`.  One second is 1000000000 nanoseconds. -/
def window_times (T : List Int) (idx : Nat) (w_s : Int) : List Int :=
  let end_time := T.getD idx 0
  let start_time := end_time - w_s * 1000000000
  T.filter (fun t => decide (start_time ≤ t) && decide (t ≤ end_time))

/-- Window extractor, per-channel value slice, src/viz.py line 117
(`y = ride_height_data[mask, i]`): the same mask applied to the value matrix,
then channel `ch` selected. -/
def window_values (T : List Int) (M : List (List ℚ)) (idx : Nat) (w_s : Int)
    (ch : Nat) : List ℚ :=
  let end_time := T.getD idx 0
  let start_time := end_time - w_s * 1000000000
  ((T.zip M).filter (fun p => decide (start_time ≤ p.1) && decide (p.1 ≤ end_time))).map
    (fun p => p.2.getD ch 0)

/-- Certification that `frame_target_time_claim` is the formula the spec
writes: `T[0] + frame × (1000/target_fps) ms` with 1 ms = 10^6 ns. -/
lemma frame_to_index_claim_target_eq (T : List Int) (frame : Nat) :
    frame_target_time_claim T frame =
      (T.headD 0 : ℚ) + (frame : ℚ) * ((1000 : ℚ) / (target_fps : ℚ)) * 1000000 := by
  have h30 : ((target_fps : Int) : ℚ) ≠ 0 := by
    simp [target_fps]
  rw [frame_target_time_claim, Rat.divInt_eq_div]
  push_cast
  field_simp [target_fps]

/-- In a list sorted by `≤`, position `j` holds an element `≤ x` exactly when
`j` is below the count of elements `≤ x`: the elements `≤ x` form a prefix. -/
lemma sorted_countP_char (T : List Int) (hs : List.Sorted (· ≤ ·) T) (x : Int) :
    ∀ (j : Nat) (hj : j < T.length),
      (T.get ⟨j, hj⟩ ≤ x ↔ j < T.countP (fun t => decide (t ≤ x))) := by
  induction T with
  | nil => intro j hj; exact absurd hj (by simp)
  | cons a l ih =>
    have hal : ∀ b ∈ l, a ≤ b := (List.sorted_cons.mp hs).1
    have hsl : List.Sorted (· ≤ ·) l := (List.sorted_cons.mp hs).2
    intro j hj
    by_cases hax : a ≤ x
    · have hc : (a :: l).countP (fun t => decide (t ≤ x)) =
          l.countP (fun t => decide (t ≤ x)) + 1 := by
        simp [List.countP_cons, hax]
      cases j with
      | zero => simpa [hc] using hax
      | succ j =>
        have hj2 : j < l.length := by simpa using hj
        have := ih hsl j hj2
        simpa [hc, Nat.succ_lt_succ_iff] using this
    · have hzero : l.countP (fun t => decide (t ≤ x)) = 0 := by
        rw [List.countP_eq_zero]
        intro b hb
        simp only [decide_eq_true_eq]
        intro hbx
        exact hax (le_trans (hal b hb) hbx)
      have hc : (a :: l).countP (fun t => decide (t ≤ x)) = 0 := by
        simp [List.countP_cons, hax, hzero]
      cases j with
      | zero => simpa [hc] using hax
      | succ j =>
        have hj2 : j < l.length := by simpa using hj
        constructor
        · intro hjx
          exact absurd hjx (by
            have hb : l.get ⟨j, hj2⟩ ∈ l := List.get_mem l j hj2
            intro hle
            exact hax (le_trans (hal _ hb) hle))
        · intro hlt
          rw [hc] at hlt
          exact absurd hlt (by omega)

/-- The head of a non-empty list with default is its first element. -/
lemma headD_eq_get (T : List Int) (h : 0 < T.length) :
    T.headD 0 = T.get ⟨0, h⟩ := by
  cases T with
  | nil => exact absurd h (by simp)
  | cons a l => rfl

/-- A positive total duration makes the degenerate guard of
`get_frame_time_idx` false. -/
lemma total_duration_s_ne_zero (T : List Int) (h2 : 2 ≤ T.length)
    (hd : T.headD 0 < T.getLastD 0) : ¬ (total_duration_s T = 0 ∨ T.length = 1) := by
  rintro (hz | hlen)
  · rw [total_duration_s, if_pos (by omega)] at hz
    rw [Rat.divInt_eq_zero (by norm_num)] at hz
    omega
  · omega

/-- C3 (amended): the degenerate cases return 0, and under the stated
conditions the frame mapper returns the largest index whose timestamp is
`≤ T[0] + floor(frame × 1000 / target_fps) ms` (the code truncates the frame
offset to whole milliseconds before the search). -/
theorem c3_amended :
    (∀ (T : List Int) (f : Nat), T.length = 1 → get_frame_time_idx T f = 0) ∧
    (∀ (T : List Int) (f : Nat), total_duration_s T = 0 → get_frame_time_idx T f = 0) ∧
    (∀ (T : List Int) (f : Nat), List.Sorted (· ≤ ·) T → 2 ≤ T.length →
      T.headD 0 < T.getLastD 0 →
      ∃ hlt : get_frame_time_idx T f < T.length,
        T.get ⟨get_frame_time_idx T f, hlt⟩ ≤ frame_target_time T f ∧
        ∀ (j : Nat) (hj : j < T.length),
          T.get ⟨j, hj⟩ ≤ frame_target_time T f → j ≤ get_frame_time_idx T f) := by
  refine ⟨?_, ?_, ?_⟩
  · intro T f hlen
    rw [get_frame_time_idx, if_pos (Or.inr hlen)]
  · intro T f hz
    rw [get_frame_time_idx, if_pos (Or.inl hz)]
  · intro T f hs h2 hd
    have hguard := total_duration_s_ne_zero T h2 hd
    have hpos : 0 < T.length := by omega
    set x := frame_target_time T f with hx
    set c := T.countP (fun t => decide (t ≤ x)) with hc
    have hchar := sorted_countP_char T hs x
    have hheadle : T.headD 0 ≤ x := by
      rw [hx, frame_target_time]
      have : (0 : Int) ≤ ((f * 1000 / target_fps : Nat) : Int) * 1000000 := by positivity
      omega
    have hc1 : 1 ≤ c := by
      have h0 := (hchar 0 hpos).mp (by rw [← headD_eq_get T hpos]; exact hheadle)
      omega
    have hclen : c ≤ T.length := List.countP_le_length _
    have hval : get_frame_time_idx T f = c - 1 := by
      rw [get_frame_time_idx, if_neg hguard]
      show (min (max ((np_searchsorted_right T x : Int) - 1) 0) ((T.length : Int) - 1)).toNat
          = c - 1
      have hnp : np_searchsorted_right T x = c := rfl
      rw [hnp]
      omega
    have hlt : get_frame_time_idx T f < T.length := by omega
    refine ⟨hlt, ?_, ?_⟩
    · have : c - 1 < c := by omega
      have := (hchar (c - 1) (by omega)).mpr this
      simpa [hval] using this
    · intro j hj hjx
      have := (hchar j hj).mp hjx
      omega

/-- C3 counterexample: with the microsecond-precision series
`T = [0 ns, 33300000 ns]` (i.e. 0 ms and 33.3 ms) and frame 1, the code maps
to index 0 while the claimed exact-time rule (last timestamp at most
`T[0] + 1 × (1000/30) ms = 33.333… ms`) selects index 1; all of the claimed
side conditions (two elements, positive duration) hold. -/
theorem c3_counterexample :
    get_frame_time_idx [0, 33300000] 1 = 0 ∧
    frame_to_index_claim [0, 33300000] 1 = 1 ∧
    List.Sorted (· ≤ ·) [(0 : Int), 33300000] ∧
    2 ≤ ([0, 33300000] : List Int).length ∧
    ¬ total_duration_s [0, 33300000] = 0 := by
  refine ⟨by decide, by decide, ?_, by decide, by decide⟩
  simp [List.Sorted]

/-- Closed instantiation of `c3_amended`: for `T = [0 ns, 50000000 ns]` and
frame 0 the characterization holds. -/
theorem c3_witness :
    ∃ hlt : get_frame_time_idx [0, 50000000] 0 < ([0, 50000000] : List Int).length,
      ([0, 50000000] : List Int).get ⟨get_frame_time_idx [0, 50000000] 0, hlt⟩ ≤
          frame_target_time [0, 50000000] 0 ∧
        ∀ (j : Nat) (hj : j < ([0, 50000000] : List Int).length),
          ([0, 50000000] : List Int).get ⟨j, hj⟩ ≤ frame_target_time [0, 50000000] 0 →
            j ≤ get_frame_time_idx [0, 50000000] 0 :=
  c3_amended.2.2 [0, 50000000] 0 (by simp [List.Sorted]) (by decide) (by decide)

/-- C4: the frame-to-index mapping is non-decreasing in the frame number. -/
theorem c4_monotone (T : List Int) (f1 f2 : Nat) (h : f1 < f2) :
    get_frame_time_idx T f1 ≤ get_frame_time_idx T f2 := by
  by_cases hguard : total_duration_s T = 0 ∨ T.length = 1
  · rw [get_frame_time_idx, if_pos hguard, get_frame_time_idx, if_pos hguard]
  · rw [get_frame_time_idx, if_neg hguard, get_frame_time_idx, if_neg hguard]
    have htgt : frame_target_time T f1 ≤ frame_target_time T f2 := by
      rw [frame_target_time, frame_target_time]
      have hoff : (f1 * 1000 / target_fps : Nat) ≤ (f2 * 1000 / target_fps : Nat) :=
        Nat.div_le_div_right (Nat.mul_le_mul_right 1000 (le_of_lt h))
      have : ((f1 * 1000 / target_fps : Nat) : Int) * 1000000 ≤
          ((f2 * 1000 / target_fps : Nat) : Int) * 1000000 := by
        have := Int.ofNat_le.mpr hoff
        nlinarith
      omega
    have hcount : np_searchsorted_right T (frame_target_time T f1) ≤
        np_searchsorted_right T (frame_target_time T f2) := by
      apply List.countP_mono_left
      intro a _ ha
      simp only [decide_eq_true_eq] at ha ⊢
      omega
    simp only []
    omega

/-- Closed instantiation of `c4_monotone` at `T = [0 ns, 50000000 ns]`,
frames 0 < 1. -/
theorem c4_witness :
    get_frame_time_idx [0, 50000000] 0 ≤ get_frame_time_idx [0, 50000000] 1 :=
  c4_monotone [0, 50000000] 0 1 (by decide)

/-- The list element with default at a valid index is the element itself. -/
lemma getD_eq_get (T : List Int) (d : Nat) (h : d < T.length) :
    T.getD d 0 = T.get ⟨d, h⟩ := by
  simp [List.getD_eq_getElem?_getD, List.getElem?_eq_getElem h, List.get_eq_getElem]

/-- C5: for a valid `data_index`, the window extractor keeps exactly the
timestamps within `[T[data_index] − w, T[data_index]]` (both ends inclusive,
one second = 10^9 ns), and when no timestamp qualifies both the time slice
and every per-channel value slice are empty rather than an error. -/
theorem c5_window (T : List Int) (M : List (List ℚ)) (d : Nat) (w : Int) (ch : Nat)
    (hd : d < T.length) :
    (∀ t ∈ window_times T d w,
        T.get ⟨d, hd⟩ - w * 1000000000 ≤ t ∧ t ≤ T.get ⟨d, hd⟩) ∧
    (∀ (i : Nat) (hi : i < T.length),
        T.get ⟨d, hd⟩ - w * 1000000000 ≤ T.get ⟨i, hi⟩ ∧ T.get ⟨i, hi⟩ ≤ T.get ⟨d, hd⟩ →
        T.get ⟨i, hi⟩ ∈ window_times T d w) ∧
    ((∀ t ∈ T, ¬ (T.get ⟨d, hd⟩ - w * 1000000000 ≤ t ∧ t ≤ T.get ⟨d, hd⟩)) →
        window_times T d w = [] ∧ window_values T M d w ch = []) := by
  have hend : T.getD d 0 = T.get ⟨d, hd⟩ := getD_eq_get T d hd
  refine ⟨?_, ?_, ?_⟩
  · intro t ht
    rw [window_times] at ht
    simp only [hend, List.mem_filter, Bool.and_eq_true, decide_eq_true_eq] at ht
    exact ht.2
  · intro i hi hbounds
    rw [window_times]
    simp only [hend, List.mem_filter, Bool.and_eq_true, decide_eq_true_eq]
    exact ⟨List.get_mem T i hi, hbounds⟩
  · intro hnone
    constructor
    · rw [window_times]
      simp only [hend]
      rw [List.filter_eq_nil_iff]
      intro t ht
      simp only [Bool.and_eq_true, decide_eq_true_eq]
      exact fun hc => hnone t ht ⟨hc.1, hc.2⟩
    · rw [window_values]
      simp only [hend]
      have : (T.zip M).filter
          (fun p => decide (T.get ⟨d, hd⟩ - w * 1000000000 ≤ p.1) &&
            decide (p.1 ≤ T.get ⟨d, hd⟩)) = [] := by
        rw [List.filter_eq_nil_iff]
        intro p hp
        simp only [Bool.and_eq_true, decide_eq_true_eq]
        exact fun hc => hnone p.1 (List.of_mem_zip hp).1 ⟨hc.1, hc.2⟩
      rw [this]
      rfl

/-- Closed instantiation of `c5_window` at `T = [0, 10^9]`,
`M = [[1],[2]]`, `data_index = 1`, `w = 3`. -/
theorem c5_witness :
    (∀ t ∈ window_times [0, 1000000000] 1 3,
        ([0, 1000000000] : List Int).get ⟨1, by decide⟩ - 3 * 1000000000 ≤ t ∧
          t ≤ ([0, 1000000000] : List Int).get ⟨1, by decide⟩) ∧
    (∀ (i : Nat) (hi : i < ([0, 1000000000] : List Int).length),
        ([0, 1000000000] : List Int).get ⟨1, by decide⟩ - 3 * 1000000000 ≤
            ([0, 1000000000] : List Int).get ⟨i, hi⟩ ∧
          ([0, 1000000000] : List Int).get ⟨i, hi⟩ ≤
            ([0, 1000000000] : List Int).get ⟨1, by decide⟩ →
        ([0, 1000000000] : List Int).get ⟨i, hi⟩ ∈ window_times [0, 1000000000] 1 3) ∧
    ((∀ t ∈ ([0, 1000000000] : List Int),
        ¬ (([0, 1000000000] : List Int).get ⟨1, by decide⟩ - 3 * 1000000000 ≤ t ∧
            t ≤ ([0, 1000000000] : List Int).get ⟨1, by decide⟩)) →
        window_times [0, 1000000000] 1 3 = [] ∧
          window_values [0, 1000000000] [[1], [2]] 1 3 0 = []) :=
  c5_window [0, 1000000000] [[1], [2]] 1 3 0 (by decide)

/-!
Log Loader (src/viz.py lines 19-42).  The state of the pandas dataframe
right after `pd.read_csv` is modelled row-major: `colNames` are the
non-timestamp column names (the fixed `Timestamp` column never matches the
`\(mm\)$` convention, so separating it is faithful), and each row is the raw
timestamp cell paired with the numeric cells of the other columns.
Timestamp parsing against the fixed `%Y-%m-%d %H:%M:%S.%f` format is the
`pd.to_datetime(..., errors="coerce")` call; it is an external library
capability, passed in as a function returning `none` for an unparseable cell
(NaT) and the instant in nanoseconds otherwise.
-/

/-- Post-`read_csv` dataframe: value-column names and rows of
(raw timestamp cell, value cells). -/
structure DataFrame where
  colNames : List String
  rows : List (String × List ℚ)

/-- Column-name convention, src/viz.py line 30: `re.search of \(mm\)$ on col`,
i.e. the name ends with the literal text `(mm)` — its last four characters
are `(`, `m`, `m`, `)`. -/
def sensor_col_match (name : String) : Bool :=
  decide (name.data.drop (name.data.length - 4) = "(mm)".data)

/-- Matched sensor columns with their positions, preserving file order
(src/viz.py line 30). -/
def sensorCols (df : DataFrame) : List (Nat × String) :=
  df.colNames.enum.filter (fun p => sensor_col_match p.2)

/-- Rows whose timestamp parses (the rows surviving the `dropna`),
src/viz.py line 26. -/
def keptRows (parse : String → Option Int) (df : DataFrame) :
    List (String × List ℚ) :=
  df.rows.filter (fun r => (parse r.1).isSome)

/-- Log Loader, src/viz.py lines 19-37: parse the timestamp column with
`errors="coerce"`; if any value is null (`isnull().any()`), drop those rows
and fail when nothing remains; fail when no column name matches the `(mm)`
convention; otherwise return the timestamp series, the matched column names,
and the row-major value matrix of the matched columns. -/
def load_viz (parse : String → Option Int) (df : DataFrame) :
    Except String (List Int × List String × List (List ℚ)) :=
  let parsed := df.rows.map (fun r => (parse r.1, r.2))
  let anyNull := parsed.any (fun p => p.1.isNone)
  let kept := if anyNull then parsed.filter (fun p => p.1.isSome) else parsed
  if anyNull && kept.isEmpty then
    .error "No valid time data remaining after dropping unparseable rows"
  else
    let scols := df.colNames.enum.filter (fun p => sensor_col_match p.2)
    if scols.isEmpty then
      .error "No sensor columns ending with (mm) found in the CSV"
    else
      .ok (kept.filterMap (fun p => p.1), scols.map Prod.snd,
        kept.map (fun p => scols.map (fun q => p.2.getD q.1 0)))

/-- Subplot-layout truncation, src/viz.py lines 53-59: with more than four
matched channels, keep only the first four columns of both the name list and
the value matrix. -/
def truncate_to_four (cols : List String) (M : List (List ℚ)) :
    List String × List (List ℚ) :=
  if 4 < cols.length then (cols.take 4, M.map (fun r => r.take 4)) else (cols, M)

/-- A `filterMap` ignores exactly the elements it maps to `none`, so
restricting the list to those elements first changes nothing. -/
lemma filterMap_filter_isSome (f : α → Option β) (l : List α) :
    (l.filter (fun a => (f a).isSome)).filterMap f = l.filterMap f := by
  induction l with
  | nil => rfl
  | cons a l ih =>
    by_cases ha : (f a).isSome
    · obtain ⟨b, hb⟩ := Option.isSome_iff_exists.mp ha
      simp [List.filter_cons, ha, List.filterMap_cons, hb, ih]
    · rw [Option.not_isSome_iff_eq_none] at ha
      simp [List.filter_cons, ha, List.filterMap_cons, ih]

/-- When every element maps to `some`, `filterMap` preserves length. -/
lemma filterMap_length_of_isSome (f : α → Option β) (l : List α)
    (h : ∀ a ∈ l, (f a).isSome) : (l.filterMap f).length = l.length := by
  induction l with
  | nil => rfl
  | cons a l ih =>
    obtain ⟨b, hb⟩ := Option.isSome_iff_exists.mp (h a (List.mem_cons_self a l))
    rw [List.filterMap_cons, hb]
    simp [ih (fun x hx => h x (List.mem_cons_of_mem a hx))]

/-- The rows the loader keeps, seen through the parsed-pair view: filtering
the parsed pairs on a non-null first component is the same as parsing the
surviving raw rows. -/
lemma loader_kept_eq (parse : String → Option Int) (df : DataFrame) :
    (df.rows.map (fun r => (parse r.1, r.2))).filter (fun p => p.1.isSome) =
      (keptRows parse df).map (fun r => (parse r.1, r.2)) := by
  rw [keptRows, List.filter_map]
  rfl

/-- If no parsed timestamp is null, every row survives. -/
lemma loader_kept_all (parse : String → Option Int) (df : DataFrame)
    (h : (df.rows.map (fun r => (parse r.1, r.2))).any (fun p => p.1.isNone) = false) :
    keptRows parse df = df.rows := by
  rw [keptRows, List.filter_eq_self]
  intro r hr
  have := List.any_eq_false.mp h (parse r.1, r.2) (List.mem_map_of_mem _ hr)
  simpa [Option.isNone_iff_eq_none, Option.isSome_iff_ne_none] using this

/-- C9 (amended): the loader fails exactly when no column matches the `(mm)`
convention, or the log has at least one record and every timestamp fails to
parse (the empty-after-dropping check only runs when something was null, so a
log with zero data records loads as an empty series); on success the
timestamps are the parses of the surviving rows in order, a dropped row
contributes nothing to the matrix, and `len(timestamps) = rows(matrix)`. -/
theorem c9_amended :
    (∀ (parse : String → Option Int) (df : DataFrame),
      (∃ m, load_viz parse df = .error m) ↔
        ((df.rows ≠ [] ∧ keptRows parse df = []) ∨ sensorCols df = [])) ∧
    (∀ (parse : String → Option Int) (df : DataFrame) (ts : List Int)
        (cols : List String) (mat : List (List ℚ)),
      load_viz parse df = .ok (ts, cols, mat) →
        ts = df.rows.filterMap (fun r => parse r.1) ∧
        cols = (sensorCols df).map Prod.snd ∧
        mat = (keptRows parse df).map
          (fun r => (sensorCols df).map (fun q => r.2.getD q.1 0)) ∧
        ts.length = mat.length) := by
  have hkept : ∀ (parse : String → Option Int) (df : DataFrame),
      (if (df.rows.map (fun r => (parse r.1, r.2))).any (fun p => p.1.isNone) then
        (df.rows.map (fun r => (parse r.1, r.2))).filter (fun p => p.1.isSome)
      else df.rows.map (fun r => (parse r.1, r.2))) =
        (keptRows parse df).map (fun r => (parse r.1, r.2)) := by
    intro parse df
    by_cases hnull :
        (df.rows.map (fun r => (parse r.1, r.2))).any (fun p => p.1.isNone) = true
    · rw [if_pos hnull, loader_kept_eq]
    · rw [if_neg hnull,
        loader_kept_all parse df (Bool.eq_false_iff.mpr hnull)]
  have hcond : ∀ (parse : String → Option Int) (df : DataFrame),
      ((df.rows.map (fun r => (parse r.1, r.2))).any (fun p => p.1.isNone) &&
        ((keptRows parse df).map (fun r => (parse r.1, r.2))).isEmpty) = true ↔
      (df.rows ≠ [] ∧ keptRows parse df = []) := by
    intro parse df
    rw [Bool.and_eq_true]
    constructor
    · rintro ⟨hnull, hkempty⟩
      obtain ⟨p, hp, _⟩ := List.any_eq_true.mp hnull
      obtain ⟨r, hr, _⟩ := List.mem_map.mp hp
      refine ⟨List.ne_nil_of_mem hr, ?_⟩
      simpa [List.isEmpty_iff] using hkempty
    · rintro ⟨hne, hkempty⟩
      refine ⟨?_, by simp [hkempty]⟩
      obtain ⟨r, rest, hrw⟩ := List.exists_cons_of_ne_nil hne
      rw [List.any_eq_true]
      refine ⟨(parse r.1, r.2), by rw [hrw]; exact List.mem_map_of_mem _ (by simp), ?_⟩
      have : r ∉ keptRows parse df := by rw [hkempty]; simp
      rw [keptRows] at this
      have hns : ¬ ((parse r.1).isSome = true) := by
        intro hsome
        exact this (List.mem_filter_of_mem (by rw [hrw]; simp) hsome)
      simp [Option.isNone_iff_eq_none, Option.not_isSome_iff_eq_none.mp hns]
  constructor
  · intro parse df
    rw [load_viz]
    simp only [hkept parse df]
    by_cases h1 : (df.rows ≠ [] ∧ keptRows parse df = [])
    · rw [if_pos ((hcond parse df).mpr h1)]
      exact ⟨fun _ => Or.inl h1, fun _ => ⟨_, rfl⟩⟩
    · rw [if_neg (fun hc => h1 ((hcond parse df).mp hc))]
      by_cases h2 : sensorCols df = []
      · rw [if_pos (by simpa [sensorCols, List.isEmpty_iff] using h2)]
        exact ⟨fun _ => Or.inr h2, fun _ => ⟨_, rfl⟩⟩
      · rw [if_neg (by simpa [sensorCols, List.isEmpty_iff] using h2)]
        constructor
        · rintro ⟨m, hm⟩
          exact absurd hm (by simp)
        · rintro (hl | hr)
          · exact absurd hl h1
          · exact absurd hr h2
  · intro parse df ts cols mat hok
    rw [load_viz] at hok
    simp only [hkept parse df] at hok
    by_cases h1 : ((df.rows.map (fun r => (parse r.1, r.2))).any (fun p => p.1.isNone) &&
        ((keptRows parse df).map (fun r => (parse r.1, r.2))).isEmpty) = true
    · rw [if_pos h1] at hok
      exact absurd hok (by simp)
    · rw [if_neg h1] at hok
      by_cases h2 : (df.colNames.enum.filter (fun p => sensor_col_match p.2)).isEmpty = true
      · rw [if_pos h2] at hok
        exact absurd hok (by simp)
      · rw [if_neg h2] at hok
        have hinj := Except.ok.inj hok
        have hts : ts = ((keptRows parse df).map
            (fun r => (parse r.1, r.2))).filterMap (fun p => p.1) :=
          (congrArg (fun p => p.1) hinj).symm
        have hcols : cols = (df.colNames.enum.filter
            (fun p => sensor_col_match p.2)).map Prod.snd :=
          (congrArg (fun p => p.2.1) hinj).symm
        have hmat : mat = ((keptRows parse df).map (fun r => (parse r.1, r.2))).map
            (fun p => (df.colNames.enum.filter (fun p => sensor_col_match p.2)).map
              (fun q => p.2.getD q.1 0)) :=
          (congrArg (fun p => p.2.2) hinj).symm
        have hts2 : ts = (keptRows parse df).filterMap (fun r => parse r.1) := by
          rw [hts, List.filterMap_map]
          rfl
        have htsfull : ts = df.rows.filterMap (fun r => parse r.1) := by
          rw [hts2, keptRows, filterMap_filter_isSome]
        have hmat2 : mat = (keptRows parse df).map
            (fun r => (sensorCols df).map (fun q => r.2.getD q.1 0)) := by
          rw [hmat, List.map_map, sensorCols]
          rfl
        refine ⟨htsfull, by rw [hcols, sensorCols], hmat2, ?_⟩
        rw [hts2, hmat2, List.length_map]
        apply filterMap_length_of_isSome
        intro r hr
        exact (List.mem_filter.mp hr).2

/-- C9 counterexample: a log whose header has a matching channel column but
which contains zero data records loads successfully as an empty series, even
though the series is empty after (vacuously) dropping unparseable rows; the
claim demands a load failure here. -/
theorem c9_counterexample :
    load_viz (fun _ => none) ⟨["Sensor 1 (mm)"], []⟩ =
      .ok ([], ["Sensor 1 (mm)"], []) ∧
    ([] : List Int) = [] := by
  constructor
  · rfl
  · rfl

/-- Closed instantiation of `c9_amended`: a two-row log in which one
timestamp fails to parse drops that whole row and keeps the other. -/
theorem c9_witness :
    ([(7 : Int)] : List Int) =
        (([("good", [(5 : ℚ)]), ("bad", [6])] : List (String × List ℚ)).filterMap
          (fun r => if r.1 = "good" then some (7 : Int) else none)) ∧
    (["Sensor 1 (mm)"] : List String) =
        (sensorCols ⟨["Sensor 1 (mm)"], [("good", [5]), ("bad", [6])]⟩).map Prod.snd ∧
    ([[(5 : ℚ)]] : List (List ℚ)) =
        (keptRows (fun s => if s = "good" then some (7 : Int) else none)
            ⟨["Sensor 1 (mm)"], [("good", [5]), ("bad", [6])]⟩).map
          (fun r => (sensorCols ⟨["Sensor 1 (mm)"], [("good", [5]), ("bad", [6])]⟩).map
            (fun q => r.2.getD q.1 0)) ∧
    ([(7 : Int)] : List Int).length = ([[(5 : ℚ)]] : List (List ℚ)).length :=
  c9_amended.2 (fun s => if s = "good" then some (7 : Int) else none)
    ⟨["Sensor 1 (mm)"], [("good", [5]), ("bad", [6])]⟩ [7] ["Sensor 1 (mm)"] [[5]]
    rfl

/-- C10: whenever the loader matches more than four channel columns, the
playback pipeline keeps only the first four matched columns (in file order)
for the value matrix and the animation; the remaining matched channels are
dropped. -/
theorem c10_truncate (parse : String → Option Int) (df : DataFrame) (ts : List Int)
    (cols : List String) (mat : List (List ℚ))
    (_hok : load_viz parse df = .ok (ts, cols, mat)) (h4 : 4 < cols.length) :
    (truncate_to_four cols mat).1 = cols.take 4 ∧
    (truncate_to_four cols mat).1 ++ cols.drop 4 = cols ∧
    (truncate_to_four cols mat).2 = mat.map (fun r => r.take 4) ∧
    (truncate_to_four cols mat).1.length = 4 := by
  rw [truncate_to_four, if_pos h4]
  refine ⟨rfl, List.take_append_drop 4 cols, rfl, ?_⟩
  simp only [List.length_take]
  omega

/-- Closed instantiation of `c10_truncate`: five matched channel columns are
cut down to the first four. -/
theorem c10_witness :
    (truncate_to_four ["A (mm)", "B (mm)", "C (mm)", "D (mm)", "E (mm)"]
        [[1, 2, 3, 4, 5]]).1 =
      (["A (mm)", "B (mm)", "C (mm)", "D (mm)", "E (mm)"] : List String).take 4 ∧
    (truncate_to_four ["A (mm)", "B (mm)", "C (mm)", "D (mm)", "E (mm)"]
        [[1, 2, 3, 4, 5]]).1 ++
        (["A (mm)", "B (mm)", "C (mm)", "D (mm)", "E (mm)"] : List String).drop 4 =
      ["A (mm)", "B (mm)", "C (mm)", "D (mm)", "E (mm)"] ∧
    (truncate_to_four ["A (mm)", "B (mm)", "C (mm)", "D (mm)", "E (mm)"]
        [[1, 2, 3, 4, 5]]).2 =
      ([[1, 2, 3, 4, 5]] : List (List ℚ)).map (fun r => r.take 4) ∧
    (truncate_to_four ["A (mm)", "B (mm)", "C (mm)", "D (mm)", "E (mm)"]
        [[1, 2, 3, 4, 5]]).1.length = 4 :=
  c10_truncate (fun _ => some 0)
    ⟨["A (mm)", "B (mm)", "C (mm)", "D (mm)", "E (mm)"], [("t", [1, 2, 3, 4, 5])]⟩
    [0] ["A (mm)", "B (mm)", "C (mm)", "D (mm)", "E (mm)"] [[1, 2, 3, 4, 5]]
    rfl (by decide)

/-!
Live acquisition pipeline (src/modviz5.py).  Sensor values are rationals;
register blocks are integer lists.  Wall-clock behaviour (timestamps, flush
timer expiry), transport outcomes and file-system faults are inputs supplied
by an environment, one per round.  The durable log is a sequence of records
as written by `csv.writer`: one optional header record followed by data
records; `none` models a file that does not exist yet.
-/

/-- One channel configuration from the `SENSORS` list
(src/modviz5.py lines 15-50). -/
structure SensorConfig where
  PORT : String
  BAUDRATE : Nat
  BYTESIZE : Nat
  PARITY : String
  STOPBITS : Nat
  TIMEOUT : ℚ
  SLAVE_ADDRESS : Nat
  REGISTER_ADDRESS : Nat
  NUMBER_OF_REGISTERS : Nat
  FUNCTION_CODE : Nat
  REGISTER_INDEX_TO_LOG : Nat
  SCALE_FACTOR : ℚ
  scale_function : Option (ℚ → ℚ)
  NAME : String
  UNIT : String

/-- First entry of `SENSORS` (src/modviz5.py lines 16-31). -/
def sensor1 : SensorConfig :=
  { PORT := "COM12", BAUDRATE := 115200, BYTESIZE := 8, PARITY := "N",
    STOPBITS := 1, TIMEOUT := Rat.divInt 3 100, SLAVE_ADDRESS := 1,
    REGISTER_ADDRESS := 512, NUMBER_OF_REGISTERS := 3, FUNCTION_CODE := 3,
    REGISTER_INDEX_TO_LOG := 0, SCALE_FACTOR := 1, scale_function := none,
    NAME := "Sensor 1", UNIT := "mm" }

/-- Second entry of `SENSORS` (src/modviz5.py lines 32-49), with the custom
scaling lambda `((x_val - 1000) * 100) / 4096`. -/
def sensor2 : SensorConfig :=
  { PORT := "COM12", BAUDRATE := 115200, BYTESIZE := 8, PARITY := "N",
    STOPBITS := 1, TIMEOUT := Rat.divInt 3 100, SLAVE_ADDRESS := 2,
    REGISTER_ADDRESS := 0, NUMBER_OF_REGISTERS := 2, FUNCTION_CODE := 3,
    REGISTER_INDEX_TO_LOG := 1, SCALE_FACTOR := 1,
    scale_function := some (fun x => ((x - 1000) * 100) / 4096),
    NAME := "Sensor 2", UNIT := "mm" }

/-- The `SENSORS` configuration list (src/modviz5.py line 15). -/
def SENSORS : List SensorConfig := [sensor1, sensor2]

/-- The CSV header row, src/modviz5.py line 55:
`["Timestamp"] + [f"{NAME} ({UNIT})" for sensor in SENSORS]`. -/
def CSV_HEADER : List String :=
  "Timestamp" :: SENSORS.map (fun s => s.NAME ++ " (" ++ s.UNIT ++ ")")

/-- One buffered reading: the round timestamp string followed by the
per-channel values (src/modviz5.py line 166: `[timestamp] + values`). -/
abbrev Row : Type := String × List (Option ℚ)

/-- A record of the durable log as emitted by `csv.writer`: either the header
row (`writer.writerow(header)`) or one data row (`writer.writerows`). -/
inductive LogRec where
  | headerRec (h : List String)
  | dataRec (r : Row)
deriving DecidableEq

/-- Channel Reader, src/modviz5.py lines 73-94 (`read_sensor_data`): one
register-block read (its outcome supplied by the transport), selection of the
configured register index, then either the custom scale function or the
linear scale factor.  The enclosing `try`/`except` catches every failure —
transport errors and a block shorter than the configured index alike — and
returns `None`. -/
def read_sensor_data (readResult : Except Unit (List Int)) (cfg : SensorConfig) :
    Option ℚ :=
  match readResult with
  | .error _ => none
  | .ok registers =>
    match registers.get? cfg.REGISTER_INDEX_TO_LOG with
    | none => none
    | some raw =>
      match cfg.scale_function with
      | some f => some (f (raw : ℚ))
      | none => some ((raw : ℚ) * cfg.SCALE_FACTOR)

/-- One sampling round, src/modviz5.py lines 157-160: iterate over the
configured instruments in order, appending each channel reading; `read j` is
the transport outcome for the j-th instrument this round. -/
def sample_round (read : Nat → Except Unit (List Int)) :
    List SensorConfig → List (Option ℚ)
  | [] => []
  | cfg :: rest => read_sensor_data (read 0) cfg :: sample_round (fun j => read (j + 1)) rest

/-- Batch Persister, src/modviz5.py lines 96-112 (`write_to_csv`): return
immediately when there are no rows; otherwise probe for existence, open for
append (an I/O fault raises, modelled as `.error`), write the header first
when the file did not exist, then append all rows in order.  The returned
Bool records whether the header was written by this call. -/
def write_to_csv (data_rows : List Row) (header : List String) (ioFault : Bool)
    (file : Option (List LogRec)) : Except Unit (Option (List LogRec) × Bool) :=
  if data_rows.isEmpty then .ok (file, false)
  else if ioFault then .error ()
  else
    match file with
    | none => .ok (some (LogRec.headerRec header :: data_rows.map LogRec.dataRec), true)
    | some old => .ok (some (old ++ data_rows.map LogRec.dataRec), false)

/-- Observable actions of the reader thread, in order of occurrence: a
`data_ready.emit` of one round of values (line 163), a successful
`write_to_csv` call draining some rows (lines 172, 190), or closing one
channel serial port by name (line 196). -/
inductive Event where
  | emit (values : List (Option ℚ))
  | flush (rows : List Row) (wroteHeader : Bool)
  | closePort (name : String)
deriving DecidableEq

/-- Is the event a serial-port close? -/
def Event.isClose : Event → Bool
  | .closePort _ => true
  | _ => false

/-- Mutable state of the reader thread: the pending-row buffer
(`readings_buffer`), the durable log file, and the trace of observable
events so far. -/
structure RunState where
  buffer : List Row
  file : Option (List LogRec)
  events : List Event
deriving DecidableEq

/-- Per-round external inputs of the sampling loop: the round timestamp
string, the transport outcome per round and channel, whether the flush
interval has elapsed at the end of the round, whether an open-for-append
faults this round, whether the shutdown flush faults, and which serial ports
report `is_open` at cleanup. -/
structure Env where
  ts : Nat → String
  reads : Nat → Nat → Except Unit (List Int)
  flushDue : Nat → Bool
  ioFault : Nat → Bool
  finalFault : Bool
  isOpen : Nat → Bool

/-- One iteration of the sampling loop, src/modviz5.py lines 153-183: read
all channels, emit the values, append the timestamped row to the buffer,
and, when the flush interval has elapsed and the buffer is non-empty, write
it out and clear it.  A raising `write_to_csv` propagates (`.error` carries
the state at the moment the thread dies: buffer retained, file unchanged). -/
def run_round (header : List String) (cfgs : List SensorConfig) (env : Env)
    (i : Nat) (st : RunState) : Except RunState RunState :=
  let values := sample_round (env.reads i) cfgs
  let buffer1 := st.buffer ++ [(env.ts i, values)]
  let events1 := st.events ++ [Event.emit values]
  if env.flushDue i then
    if buffer1.isEmpty then .ok { buffer := buffer1, file := st.file, events := events1 }
    else
      match write_to_csv buffer1 header (env.ioFault i) st.file with
      | .error _ => .error { buffer := buffer1, file := st.file, events := events1 }
      | .ok (f2, wh) =>
        .ok { buffer := [], file := f2, events := events1 ++ [Event.flush buffer1 wh] }
  else .ok { buffer := buffer1, file := st.file, events := events1 }

/-- The sampling loop, src/modviz5.py line 153 (`while self._running`): the
stop flag is observed at the top of each iteration, so a stop request lets
the current round complete; `n` counts the remaining iterations before the
flag is seen false, `i` the current round number. -/
def run_loop (header : List String) (cfgs : List SensorConfig) (env : Env) :
    Nat → Nat → RunState → Except RunState RunState
  | _, 0, st => .ok st
  | i, n + 1, st =>
    match run_round header cfgs env i st with
    | .error e => .error e
    | .ok st2 => run_loop header cfgs env (i + 1) n st2

/-- The port-close sequence of the cleanup phase, src/modviz5.py lines
194-197: every configured instrument whose serial port is open is closed, in
configuration order. -/
def closeEvents (cfgs : List SensorConfig) (isOpen : Nat → Bool) : List Event :=
  (cfgs.enum.filter (fun p => isOpen p.1)).map (fun p => Event.closePort p.2.NAME)

/-- Cleanup phase after the loop exits, src/modviz5.py lines 187-197: flush
the remaining buffer if non-empty (a raising write kills the thread before
any port is closed), then close all open serial ports.  Unlike the periodic
flush at line 174, this path never assigns `self.readings_buffer = []`, so
the buffer still holds the stop-time rows after the flush. -/
def run_shutdown (header : List String) (cfgs : List SensorConfig) (env : Env)
    (st : RunState) : Except RunState RunState :=
  if st.buffer.isEmpty then
    .ok { st with events := st.events ++ closeEvents cfgs env.isOpen }
  else
    match write_to_csv st.buffer header env.finalFault st.file with
    | .error _ => .error st
    | .ok (f2, wh) =>
      .ok { buffer := st.buffer, file := f2,
            events := st.events ++ [Event.flush st.buffer wh] ++
              closeEvents cfgs env.isOpen }

/-- Channel configuration at thread start, src/modviz5.py lines 136-142: each
config is attempted in order; a failing `setup_minimalmodbus_instrument`
(outcome supplied per config) is logged and skipped, a succeeding one is
appended to `self.instruments`. -/
def setup_instruments (cfgs : List SensorConfig) (configOk : List Bool) :
    List SensorConfig :=
  ((cfgs.zip configOk).filter (fun p => p.2)).map Prod.fst

/-- The state at thread start: empty buffer, no log file written yet (the
log name embeds the start time, so a fresh session starts with no file), no
events. -/
def initState : RunState := { buffer := [], file := none, events := [] }

/-- `SensorReader.run`, src/modviz5.py lines 134-197: configure instruments;
if none configured, set `_running = False` and return from the thread at
once (lines 144-147) — nothing is read, written, or closed; otherwise run
the sampling loop for `nRounds` rounds and then the cleanup phase. -/
def sensor_run (header : List String) (cfgs : List SensorConfig)
    (configOk : List Bool) (env : Env) (nRounds : Nat) : Except RunState RunState :=
  let instruments := setup_instruments cfgs configOk
  if instruments.isEmpty then .ok initState
  else
    match run_loop header instruments env 0 nRounds initState with
    | .error e => .error e
    | .ok st => run_shutdown header instruments env st

/-- Exit status of the live pipeline process.  `__main__`
(src/modviz5.py lines 283-297) discards the result of `app.exec_()` and the
script then falls off the end, so the interpreter exits with status 0
however many channels configured; no code path calls `sys.exit` with a
non-zero value. -/
def main_exit_code : Nat := 0

/-- A quiet environment for closed instantiations: every transport read
fails, the flush interval never elapses mid-run, no I/O faults, all ports
open. -/
def env0 : Env :=
  { ts := fun _ => "2024-01-01 00:00:00.000", reads := fun _ _ => .error (),
    flushDue := fun _ => false, ioFault := fun _ => false, finalFault := false,
    isOpen := fun _ => true }

/-- An environment whose flush interval elapses on round 0 and whose
open-for-append faults there. -/
def envFault : Env :=
  { ts := fun _ => "2024-01-01 00:00:00.000", reads := fun _ _ => .error (),
    flushDue := fun _ => true, ioFault := fun _ => true, finalFault := false,
    isOpen := fun _ => true }

/-- An environment whose flush interval elapses every round, fault-free. -/
def envFlush : Env :=
  { ts := fun _ => "2024-01-01 00:00:00.000", reads := fun _ _ => .error (),
    flushDue := fun _ => true, ioFault := fun _ => false, finalFault := false,
    isOpen := fun _ => true }

/-- C1 (amended): when every channel configuration attempt fails, the reader
thread returns before entering the sampling loop — no round is executed, no
data is read, written, or closed — but the process does not terminate with a
non-zero exit code: the thread exit leaves the Qt event loop running and the
process exits 0. -/
theorem c1_amended (header : List String) (cfgs : List SensorConfig)
    (configOk : List Bool) (env : Env) (n : Nat)
    (hfail : ∀ b ∈ configOk, b = false) :
    sensor_run header cfgs configOk env n = .ok initState ∧
    initState.events = [] ∧ initState.buffer = [] ∧ main_exit_code = 0 := by
  have hsetup : setup_instruments cfgs configOk = [] := by
    rw [setup_instruments]
    have hf : (cfgs.zip configOk).filter (fun p => p.2) = [] := by
      rw [List.filter_eq_nil_iff]
      intro p hp
      have hb := (List.of_mem_zip hp).2
      simp [hfail p.2 hb]
    rw [hf]
    rfl
  refine ⟨?_, rfl, rfl, rfl⟩
  rw [sensor_run, hsetup]
  rfl

/-- C1 counterexample: a run of the shipped two-sensor configuration in
which both configuration attempts fail executes zero sampling rounds, yet
the process exit code is 0, not non-zero as the claim requires. -/
theorem c1_counterexample :
    sensor_run CSV_HEADER SENSORS [false, false] env0 3 = .ok initState ∧
    initState.events = [] ∧ ¬ main_exit_code ≠ 0 :=
  ⟨rfl, rfl, fun h => h rfl⟩

/-- Closed instantiation of `c1_amended` on the shipped configuration with
both configuration attempts failing. -/
theorem c1_witness :
    sensor_run CSV_HEADER SENSORS [false, false] envFault 2 = .ok initState ∧
    initState.events = [] ∧ initState.buffer = [] ∧ main_exit_code = 0 :=
  c1_amended CSV_HEADER SENSORS [false, false] envFault 2 (by decide)

/-- C2: a failing flush raises instead of returning, which is distinguishable
from the silent return on an empty row list; the rows passed to the failing
flush are not written and, in the caller, the pending-row buffer is left
exactly as it was (the clearing assignment is skipped by the exception), so
no buffered row is lost. -/
theorem c2_flush_failure :
    (∀ (header : List String) (file : Option (List LogRec)),
      write_to_csv [] header true file = .ok (file, false)) ∧
    (∀ (header : List String) (rows : List Row) (file : Option (List LogRec)),
      rows ≠ [] → write_to_csv rows header true file = .error ()) ∧
    (∀ (header : List String) (rows : List Row) (file : Option (List LogRec)),
      rows ≠ [] →
      write_to_csv rows header true file ≠ write_to_csv [] header true file) ∧
    (∀ (header : List String) (cfgs : List SensorConfig) (env : Env) (i : Nat)
        (st : RunState), env.flushDue i = true → env.ioFault i = true →
      run_round header cfgs env i st =
        .error { buffer := st.buffer ++ [(env.ts i, sample_round (env.reads i) cfgs)],
                 file := st.file,
                 events := st.events ++ [Event.emit (sample_round (env.reads i) cfgs)] }) := by
  have h2 : ∀ (header : List String) (rows : List Row) (file : Option (List LogRec)),
      rows ≠ [] → write_to_csv rows header true file = .error () := by
    intro header rows file hne
    rw [write_to_csv.eq_def, if_neg (by simp [hne]), if_pos rfl]
  refine ⟨fun header file => rfl, h2, ?_, ?_⟩
  · intro header rows file hne
    rw [h2 header rows file hne, write_to_csv.eq_def]
    simp
  · intro header cfgs env i st hdue hfault
    rw [run_round]
    rw [if_pos hdue,
      if_neg (by simp : ¬ (st.buffer ++
        [(env.ts i, sample_round (env.reads i) cfgs)]).isEmpty = true),
      hfault, h2 header _ st.file (by simp)]

/-- Closed instantiation of `c2_flush_failure`: a faulting flush of one
buffered row errors out, and the failing round leaves that row in the
buffer and the file untouched. -/
theorem c2_witness :
    write_to_csv [("2024-01-01 00:00:00.000", [none])] CSV_HEADER true none =
      .error () ∧
    run_round CSV_HEADER [sensor1] envFault 0 initState =
      .error { buffer := initState.buffer ++
                 [(envFault.ts 0, sample_round (envFault.reads 0) [sensor1])],
               file := initState.file,
               events := initState.events ++
                 [Event.emit (sample_round (envFault.reads 0) [sensor1])] } :=
  ⟨c2_flush_failure.2.1 CSV_HEADER [("2024-01-01 00:00:00.000", [none])] none
      (by decide),
    c2_flush_failure.2.2.2 CSV_HEADER [sensor1] envFault 0 initState rfl rfl⟩

/-- C6: the Channel Reader maps a transport or timeout failure to `none`, a
decode failure (register index beyond the returned block) to `none`; the
Scheduler reads every configured channel each round, so the round vector has
exactly one entry per configured channel, each entry being the reading of
that channel, and each entry is either a numeric value or `none`. -/
theorem c6_reader :
    (∀ (e : Unit) (cfg : SensorConfig), read_sensor_data (.error e) cfg = none) ∧
    (∀ (regs : List Int) (cfg : SensorConfig),
      regs.get? cfg.REGISTER_INDEX_TO_LOG = none →
      read_sensor_data (.ok regs) cfg = none) ∧
    (∀ (read : Nat → Except Unit (List Int)) (cfgs : List SensorConfig),
      (sample_round read cfgs).length = cfgs.length) ∧
    (∀ (read : Nat → Except Unit (List Int)) (cfgs : List SensorConfig) (i : Nat),
      (sample_round read cfgs).get? i =
        (cfgs.get? i).map (fun cfg => read_sensor_data (read i) cfg)) ∧
    (∀ (read : Nat → Except Unit (List Int)) (cfgs : List SensorConfig)
        (v : Option ℚ), v ∈ sample_round read cfgs → v = none ∨ ∃ q, v = some q) := by
  refine ⟨fun e cfg => rfl, ?_, ?_, ?_, ?_⟩
  · intro regs cfg h
    rw [read_sensor_data, h]
  · intro read cfgs
    induction cfgs generalizing read with
    | nil => rfl
    | cons cfg rest ih => simp [sample_round, ih]
  · intro read cfgs i
    induction cfgs generalizing read i with
    | nil => simp [sample_round]
    | cons cfg rest ih =>
      cases i with
      | zero => rfl
      | succ i => simpa [sample_round] using ih (fun j => read (j + 1)) i
  · intro read cfgs v _
    cases v with
    | none => exact Or.inl rfl
    | some q => exact Or.inr ⟨q, rfl⟩

/-- Closed instantiation of `c6_reader`: sensor 2 logs register index 1, so
a one-register block is a decode failure and reads as `none`. -/
theorem c6_witness : read_sensor_data (.ok [3]) sensor2 = none :=
  c6_reader.2.1 [3] sensor2 (by decide)

/-- The row batches drained by the successful flushes recorded in a trace,
oldest first. -/
def flushedBatches (evs : List Event) : List (List Row) :=
  evs.filterMap (fun e => match e with
    | .flush r _ => some r
    | _ => none)

/-- The header-written markers of the successful flushes in a trace. -/
def headerFlags (evs : List Event) : List Bool :=
  evs.filterMap (fun e => match e with
    | .flush _ w => some w
    | _ => none)

/-- The log file produced by a sequence of drained batches starting from no
file: nothing at all before the first flush, afterwards the header record
followed by every drained row in order. -/
def mkFile (header : List String) (batches : List (List Row)) :
    Option (List LogRec) :=
  if batches.isEmpty then none
  else some (LogRec.headerRec header :: batches.flatten.map LogRec.dataRec)

/-- Header-flag pattern for `n` flushes: the first writes the header,
the rest do not. -/
def mkFlags : Nat → List Bool
  | 0 => []
  | n + 1 => true :: List.replicate n false

/-- Invariant tying a run state to its trace: the file holds exactly the
header followed by the flushed batches in order, and only the first flush
wrote the header. -/
def FileInv (header : List String) (st : RunState) : Prop :=
  st.file = mkFile header (flushedBatches st.events) ∧
  headerFlags st.events = mkFlags (flushedBatches st.events).length

lemma flushedBatches_append (a b : List Event) :
    flushedBatches (a ++ b) = flushedBatches a ++ flushedBatches b :=
  List.filterMap_append a b _

lemma headerFlags_append (a b : List Event) :
    headerFlags (a ++ b) = headerFlags a ++ headerFlags b :=
  List.filterMap_append a b _

lemma flushedBatches_emit (v : List (Option ℚ)) :
    flushedBatches [Event.emit v] = [] := rfl

lemma flushedBatches_flush (r : List Row) (w : Bool) :
    flushedBatches [Event.flush r w] = [r] := rfl

lemma headerFlags_emit (v : List (Option ℚ)) :
    headerFlags [Event.emit v] = [] := rfl

lemma headerFlags_flush (r : List Row) (w : Bool) :
    headerFlags [Event.flush r w] = [w] := rfl

/-- One loop iteration preserves the file/trace invariant. -/
lemma run_round_fileInv (header : List String) (cfgs : List SensorConfig)
    (env : Env) (i : Nat) (st st2 : RunState)
    (h : run_round header cfgs env i st = .ok st2)
    (hInv : FileInv header st) : FileInv header st2 := by
  obtain ⟨hfile, hflags⟩ := hInv
  rw [run_round] at h
  by_cases hdue : env.flushDue i = true
  · rw [if_pos hdue,
      if_neg (by simp : ¬ (st.buffer ++
        [(env.ts i, sample_round (env.reads i) cfgs)]).isEmpty = true)] at h
    by_cases hfault : env.ioFault i = true
    · rw [hfault] at h
      rw [write_to_csv.eq_def, if_neg (by simp), if_pos rfl] at h
      exact absurd h (by simp)
    · rw [Bool.eq_false_iff.mpr hfault] at h
      rw [write_to_csv.eq_def, if_neg (by simp)] at h
      simp only [Bool.false_eq_true, if_false] at h
      by_cases hB : (flushedBatches st.events).isEmpty = true
      · have hBnil : flushedBatches st.events = [] := by simpa using hB
        have hfnone : st.file = none := by
          rw [hfile, mkFile, if_pos hB]
        rw [hfnone] at h
        obtain rfl := Except.ok.inj h
        constructor
        · rw [flushedBatches_append, flushedBatches_append, flushedBatches_emit,
            flushedBatches_flush, hBnil, mkFile, if_neg (by simp)]
          simp
        · have hlen0 : (flushedBatches st.events).length = 0 := by rw [hBnil]; rfl
          rw [headerFlags_append, headerFlags_append, headerFlags_emit,
            headerFlags_flush, hflags, hlen0, flushedBatches_append,
            flushedBatches_append, flushedBatches_emit, flushedBatches_flush, hBnil]
          rfl
      · have hBne : flushedBatches st.events ≠ [] := by simpa using hB
        have hfsome : st.file = some (LogRec.headerRec header ::
            (flushedBatches st.events).flatten.map LogRec.dataRec) := by
          rw [hfile, mkFile, if_neg hB]
        rw [hfsome] at h
        obtain rfl := Except.ok.inj h
        constructor
        · rw [flushedBatches_append, flushedBatches_append, flushedBatches_emit,
            flushedBatches_flush, mkFile, if_neg (by simp)]
          simp [List.flatten_append]
        · rw [headerFlags_append, headerFlags_append, headerFlags_emit,
            headerFlags_flush, hflags, flushedBatches_append, flushedBatches_append,
            flushedBatches_emit, flushedBatches_flush]
          obtain ⟨b, B, hBcons⟩ := List.exists_cons_of_ne_nil hBne
          rw [hBcons]
          simp [mkFlags, List.replicate_succ']
  · rw [if_neg hdue] at h
    obtain rfl := Except.ok.inj h
    constructor
    · simpa [flushedBatches_append, flushedBatches_emit] using hfile
    · simpa [headerFlags_append, flushedBatches_append, headerFlags_emit,
        flushedBatches_emit] using hflags

/-- The sampling loop preserves the file/trace invariant. -/
lemma run_loop_fileInv (header : List String) (cfgs : List SensorConfig)
    (env : Env) :
    ∀ (n i : Nat) (st st2 : RunState), run_loop header cfgs env i n st = .ok st2 →
      FileInv header st → FileInv header st2 := by
  intro n
  induction n with
  | zero =>
    intro i st st2 h hInv
    rw [run_loop] at h
    rwa [← Except.ok.inj h]
  | succ n ih =>
    intro i st st2 h hInv
    rw [run_loop] at h
    cases hr : run_round header cfgs env i st with
    | error e => rw [hr] at h; exact absurd h (by simp)
    | ok st1 =>
      rw [hr] at h
      exact ih (i + 1) st1 st2 h (run_round_fileInv header cfgs env i st st1 hr hInv)

/-- One loop iteration emits and flushes but never closes a port. -/
lemma run_round_noClose (header : List String) (cfgs : List SensorConfig)
    (env : Env) (i : Nat) (st st2 : RunState)
    (h : run_round header cfgs env i st = .ok st2)
    (hst : ∀ e ∈ st.events, e.isClose = false) :
    ∀ e ∈ st2.events, e.isClose = false := by
  rw [run_round] at h
  by_cases hdue : env.flushDue i = true
  · rw [if_pos hdue,
      if_neg (by simp : ¬ (st.buffer ++
        [(env.ts i, sample_round (env.reads i) cfgs)]).isEmpty = true)] at h
    cases hw : write_to_csv (st.buffer ++
        [(env.ts i, sample_round (env.reads i) cfgs)]) header (env.ioFault i)
        st.file with
    | error e0 => rw [hw] at h; exact absurd h (by simp)
    | ok pr =>
      rw [hw] at h
      obtain ⟨f2, wh⟩ := pr
      obtain rfl := Except.ok.inj h
      intro e he
      simp only [List.mem_append, List.mem_singleton] at he
      rcases he with (he | he) | he
      · exact hst e he
      · rw [he]; rfl
      · rw [he]; rfl
  · rw [if_neg hdue] at h
    obtain rfl := Except.ok.inj h
    intro e he
    simp only [List.mem_append, List.mem_singleton] at he
    rcases he with he | he
    · exact hst e he
    · rw [he]; rfl

/-- The sampling loop never closes a port. -/
lemma run_loop_noClose (header : List String) (cfgs : List SensorConfig)
    (env : Env) :
    ∀ (n i : Nat) (st st2 : RunState), run_loop header cfgs env i n st = .ok st2 →
      (∀ e ∈ st.events, e.isClose = false) → ∀ e ∈ st2.events, e.isClose = false := by
  intro n
  induction n with
  | zero =>
    intro i st st2 h hst
    rw [run_loop] at h
    rwa [← Except.ok.inj h]
  | succ n ih =>
    intro i st st2 h hst
    rw [run_loop] at h
    cases hr : run_round header cfgs env i st with
    | error e => rw [hr] at h; exact absurd h (by simp)
    | ok st1 =>
      rw [hr] at h
      exact ih (i + 1) st1 st2 h (run_round_noClose header cfgs env i st st1 hr hst)

/-- A normally-returning cleanup phase leaves the buffer exactly as it was:
the shutdown flush writes the rows but never clears `readings_buffer`. -/
lemma run_shutdown_buffer_unchanged (header : List String)
    (cfgs : List SensorConfig) (env : Env) (st st2 : RunState)
    (h : run_shutdown header cfgs env st = .ok st2) : st2.buffer = st.buffer := by
  rw [run_shutdown] at h
  by_cases hbuf : st.buffer.isEmpty = true
  · rw [if_pos hbuf] at h
    obtain rfl := Except.ok.inj h
    rfl
  · rw [if_neg hbuf] at h
    cases hw : write_to_csv st.buffer header env.finalFault st.file with
    | error e0 => rw [hw] at h; exact absurd h (by simp)
    | ok pr =>
      obtain ⟨f2, wh⟩ := pr
      rw [hw] at h
      obtain rfl := Except.ok.inj h
      rfl

/-- C7 (amended): starting from a log that does not yet exist, after any
successful run of the sampling loop the file is exactly the header record
followed by every flushed row in order — the header was written by the first
flush only, and later flushes appended data rows without writing it again;
the pending-row buffer is empty right after every successful periodic flush,
but the shutdown flush leaves the buffer exactly as it was (the cleanup
phase never assigns `readings_buffer = []`). -/
theorem c7_flush_invariant :
    (∀ (header : List String) (cfgs : List SensorConfig) (env : Env) (n : Nat)
        (st2 : RunState), run_loop header cfgs env 0 n initState = .ok st2 →
      st2.file = mkFile header (flushedBatches st2.events) ∧
      headerFlags st2.events = mkFlags (flushedBatches st2.events).length) ∧
    (∀ (header : List String) (cfgs : List SensorConfig) (env : Env) (i : Nat)
        (st st2 : RunState), run_round header cfgs env i st = .ok st2 →
      env.flushDue i = true → st2.buffer = []) ∧
    (∀ (header : List String) (cfgs : List SensorConfig) (env : Env)
        (st st2 : RunState), run_shutdown header cfgs env st = .ok st2 →
      st2.buffer = st.buffer) := by
  refine ⟨?_, ?_, ?_⟩
  · intro header cfgs env n st2 h
    exact run_loop_fileInv header cfgs env n 0 initState st2 h ⟨rfl, rfl⟩
  · intro header cfgs env i st st2 h hdue
    rw [run_round, if_pos hdue,
      if_neg (by simp : ¬ (st.buffer ++
        [(env.ts i, sample_round (env.reads i) cfgs)]).isEmpty = true)] at h
    cases hw : write_to_csv (st.buffer ++
        [(env.ts i, sample_round (env.reads i) cfgs)]) header (env.ioFault i)
        st.file with
    | error e0 => rw [hw] at h; exact absurd h (by simp)
    | ok pr =>
      obtain ⟨f2, wh⟩ := pr
      rw [hw] at h
      obtain rfl := Except.ok.inj h
      rfl
  · exact run_shutdown_buffer_unchanged

/-- A stop-time state holding one buffered row, before any flush. -/
def stStale : RunState :=
  { buffer := [("2024-01-01 00:00:00.000", [none])], file := none, events := [] }

/-- The state the cleanup phase produces from `stStale`: the row was flushed
(header first, since the log did not exist) and the port closed, yet the
buffer still holds the row. -/
def stStaleAfter : RunState :=
  { buffer := [("2024-01-01 00:00:00.000", [none])],
    file := some [LogRec.headerRec CSV_HEADER,
      LogRec.dataRec ("2024-01-01 00:00:00.000", [none])],
    events := [Event.flush [("2024-01-01 00:00:00.000", [none])] true,
      Event.closePort "Sensor 1"] }

/-- C7 counterexample: a successful shutdown flush of one buffered row (the
`Event.flush` in the resulting trace records it) after which the pending-row
buffer is NOT empty — it still holds exactly that row — refuting the claim
that after every successful flush the buffer is empty. -/
theorem c7_counterexample :
    run_shutdown CSV_HEADER [sensor1] env0 stStale = .ok stStaleAfter ∧
    stStaleAfter.buffer = stStale.buffer ∧
    stStale.buffer ≠ [] :=
  ⟨rfl, rfl, by decide⟩

/-- State after one quiet round followed by a flush triggered by the elapsed
interval: buffer drained, header plus the one row on file. -/
def stFlushed : RunState :=
  { buffer := [],
    file := some [LogRec.headerRec CSV_HEADER,
      LogRec.dataRec ("2024-01-01 00:00:00.000", [none])],
    events := [Event.emit [none],
      Event.flush [("2024-01-01 00:00:00.000", [none])] true] }

/-- Closed instantiation of `c7_flush_invariant`: one round of a one-channel
run whose flush interval elapses immediately. -/
theorem c7_witness :
    stFlushed.file = mkFile CSV_HEADER (flushedBatches stFlushed.events) ∧
    headerFlags stFlushed.events = mkFlags (flushedBatches stFlushed.events).length :=
  c7_flush_invariant.1 CSV_HEADER [sensor1] envFlush 1 stFlushed rfl

/-- C8: when a stopped run returns normally, the trace decomposes as: the
loop events (the stop flag is observed at the top of an iteration, so every
started round completed, and no port was closed during the loop), then —
when the buffer at stop time is non-empty — exactly one flush of exactly
those rows, then the port closes; the rows are appended after everything
already on file, in original order.  The cleanup phase leaves the buffer
exactly as it was at stop time (it never clears `readings_buffer`). -/
theorem c8_shutdown_order (header : List String) (cfgs : List SensorConfig)
    (configOk : List Bool) (env : Env) (n : Nat) (stFinal : RunState)
    (hrun : sensor_run header cfgs configOk env n = .ok stFinal)
    (hinst : setup_instruments cfgs configOk ≠ []) :
    ∃ stopSt : RunState,
      run_loop header (setup_instruments cfgs configOk) env 0 n initState =
        .ok stopSt ∧
      (∀ e ∈ stopSt.events, e.isClose = false) ∧
      stFinal.buffer = stopSt.buffer ∧
      (stopSt.buffer = [] →
        stFinal.file = stopSt.file ∧
        stFinal.events = stopSt.events ++
          closeEvents (setup_instruments cfgs configOk) env.isOpen) ∧
      (stopSt.buffer ≠ [] → ∃ wh : Bool,
        stFinal.events = stopSt.events ++ [Event.flush stopSt.buffer wh] ++
          closeEvents (setup_instruments cfgs configOk) env.isOpen ∧
        stFinal.file = some ((match stopSt.file with
            | none => [LogRec.headerRec header]
            | some old => old) ++ stopSt.buffer.map LogRec.dataRec)) := by
  simp only [sensor_run] at hrun
  rw [if_neg (by simp [List.isEmpty_iff, hinst])] at hrun
  cases hloop : run_loop header (setup_instruments cfgs configOk) env 0 n initState with
  | error e0 => rw [hloop] at hrun; exact absurd hrun (by simp)
  | ok stopSt =>
    rw [hloop] at hrun
    have hshut : run_shutdown header (setup_instruments cfgs configOk) env stopSt =
        .ok stFinal := hrun
    refine ⟨stopSt, rfl, ?_, ?_, ?_, ?_⟩
    · exact run_loop_noClose header (setup_instruments cfgs configOk) env n 0
        initState stopSt hloop (fun e he => absurd he (List.not_mem_nil e))
    · exact run_shutdown_buffer_unchanged header (setup_instruments cfgs configOk)
        env stopSt stFinal hshut
    · intro hb
      rw [run_shutdown, if_pos (List.isEmpty_iff.mpr hb)] at hshut
      obtain rfl := Except.ok.inj hshut
      exact ⟨rfl, rfl⟩
    · intro hb
      rw [run_shutdown, if_neg (by simp [hb])] at hshut
      cases hw : write_to_csv stopSt.buffer header env.finalFault stopSt.file with
      | error e0 => rw [hw] at hshut; exact absurd hshut (by simp)
      | ok pr =>
        obtain ⟨f2, wh⟩ := pr
        rw [hw] at hshut
        obtain rfl := Except.ok.inj hshut
        refine ⟨wh, rfl, ?_⟩
        rw [write_to_csv.eq_def, if_neg (by simp [hb])] at hw
        by_cases hff : env.finalFault = true
        · rw [hff, if_pos rfl] at hw
          exact absurd hw (by simp)
        · rw [Bool.eq_false_iff.mpr hff] at hw
          simp only [Bool.false_eq_true, if_false] at hw
          cases hfile : stopSt.file with
          | none =>
            rw [hfile] at hw
            have hpr := Except.ok.inj hw
            injection hpr with hf2 hwh
            exact hf2.symm
          | some old =>
            rw [hfile] at hw
            have hpr := Except.ok.inj hw
            injection hpr with hf2 hwh
            exact hf2.symm

/-- Final state of a one-round, one-channel run stopped with a non-empty
buffer: the shutdown flush wrote the header and the row, then the port was
closed; the buffer still holds the stop-time row. -/
def stShutdown : RunState :=
  { buffer := [("2024-01-01 00:00:00.000", [none])],
    file := some [LogRec.headerRec CSV_HEADER,
      LogRec.dataRec ("2024-01-01 00:00:00.000", [none])],
    events := [Event.emit [none],
      Event.flush [("2024-01-01 00:00:00.000", [none])] true,
      Event.closePort "Sensor 1"] }

/-- Closed instantiation of `c8_shutdown_order`: a one-channel run stopped
after one quiet round with one buffered row. -/
theorem c8_witness :
    ∃ stopSt : RunState,
      run_loop CSV_HEADER (setup_instruments [sensor1] [true]) env0 0 1 initState =
        .ok stopSt ∧
      (∀ e ∈ stopSt.events, e.isClose = false) ∧
      stShutdown.buffer = stopSt.buffer ∧
      (stopSt.buffer = [] →
        stShutdown.file = stopSt.file ∧
        stShutdown.events = stopSt.events ++
          closeEvents (setup_instruments [sensor1] [true]) env0.isOpen) ∧
      (stopSt.buffer ≠ [] → ∃ wh : Bool,
        stShutdown.events = stopSt.events ++ [Event.flush stopSt.buffer wh] ++
          closeEvents (setup_instruments [sensor1] [true]) env0.isOpen ∧
        stShutdown.file = some ((match stopSt.file with
            | none => [LogRec.headerRec CSV_HEADER]
            | some old => old) ++ stopSt.buffer.map LogRec.dataRec)) :=
  c8_shutdown_order CSV_HEADER [sensor1] [true] env0 1 stShutdown rfl
    (List.cons_ne_nil sensor1 [])
